import Mathlib

/-!
Verification development for the mock-backend test toolkit
(`backends/api.py`, `backends/http/http_backend.py`, `backends/grpc/grpc_backend.py`).

The Python sources are shallowly embedded:

* Python `re` compiled patterns are modelled as a small regex datatype with
  Brzozowski-derivative matching; `Pattern.match` (anchored at the start of the
  string, matching any prefix) is `reMatch`, `Pattern.search` is `reSearch`.
* The `schema` library's dict validation (`Schema(d, ignore_extra_keys=...)
  .is_valid(data)`) with literal string keys is `schemaDictValid`: every
  validator key must be present in the data with a value accepted by the
  corresponding sub-validator, and unless `ignore_extra_keys` is set every data
  key must also occur among the validator keys.  Sub-validators are embedded as
  Boolean predicates on the value.
* Request/response objects become plain records; queues become lists;
  the multiprocessing layer becomes explicit effect records, with the
  wall-clock polling loop abstracted to a discrete sequence of length
  observations of the shared readiness list.
-/

namespace TestingUtils

/-! ### Model of Python compiled `re` patterns -/

/-- Regular expressions: failure, empty string, a single character, the `.`
wildcard, alternation, concatenation and Kleene star. -/
inductive Regex where
  | fail : Regex
  | eps : Regex
  | char : Char → Regex
  | dot : Regex
  | alt : Regex → Regex → Regex
  | concat : Regex → Regex → Regex
  | star : Regex → Regex
deriving DecidableEq

/-- Whether the empty string is in the language of the regex. -/
def Regex.nullable : Regex → Bool
  | .fail => false
  | .eps => true
  | .char _ => false
  | .dot => false
  | .alt r1 r2 => r1.nullable || r2.nullable
  | .concat r1 r2 => r1.nullable && r2.nullable
  | .star _ => true

/-- Brzozowski derivative of a regex with respect to one character. -/
def Regex.deriv : Regex → Char → Regex
  | .fail, _ => .fail
  | .eps, _ => .fail
  | .char c, a => if a = c then .eps else .fail
  | .dot, _ => .eps
  | .alt r1 r2, a => .alt (r1.deriv a) (r2.deriv a)
  | .concat r1 r2, a =>
    if r1.nullable then .alt (.concat (r1.deriv a) r2) (r2.deriv a)
    else .concat (r1.deriv a) r2
  | .star r, a => .concat (r.deriv a) (.star r)

/-- Does some prefix of the character list belong to the language of the
regex?  This is the semantics of Python's `Pattern.match`, which anchors the
pattern at the beginning of the string but does not require it to consume the
whole string. -/
def Regex.matchFrom : Regex → List Char → Bool
  | r, [] => r.nullable
  | r, c :: cs => r.nullable || (r.deriv c).matchFrom cs

/-- Python `Pattern.match(s)` viewed as a Boolean: true iff the pattern
matches at the start of `s`. -/
def reMatch (r : Regex) (s : String) : Bool :=
  r.matchFrom s.data

/-- Helper for `Pattern.search`: does the pattern match starting at some
position of the character list? -/
def Regex.searchFrom : Regex → List Char → Bool
  | r, [] => r.nullable
  | r, c :: cs => r.matchFrom (c :: cs) || r.searchFrom cs

/-- Python `Pattern.search(s)` viewed as a Boolean: true iff the pattern
matches somewhere inside `s` (used by `schema.Regex`). -/
def reSearch (r : Regex) (s : String) : Bool :=
  r.searchFrom s.data

/-- The regex denoting exactly one literal character list. -/
def strLit : List Char → Regex
  | [] => .eps
  | c :: cs => .concat (.char c) (strLit cs)

/-! ### Model of the `schema` library's dict validation -/

/-- Validation of one looked-up value: a key missing from the data dict is
invalid, a present value is checked by the sub-validator. -/
def valAccept {α : Type} (p : α → Bool) : Option α → Bool
  | some v => p v
  | none => false

/-- `Schema(validator, ignore_extra_keys=ignore).is_valid(data)` for a dict
validator with literal string keys.  The validator is an association list from
key to a Boolean sub-validator on the value; the data is an association list
from key to value (a Python dict, so keys are unique and `List.lookup` finds
the value).  Every validator key must be present with an accepted value, and
when `ignore` is false every data key must also be a validator key. -/
def schemaDictValid {α : Type} (validator : List (String × (α → Bool)))
    (ignore : Bool) (data : List (String × α)) : Bool :=
  (validator.all fun kv => valAccept kv.snd (data.lookup kv.fst))
  && (ignore || data.all fun dv => validator.any fun kv => kv.fst == dv.fst)

/-- Python `str.lower()` / `str.casefold()` on the character list of the
string (`String.toLower` itself is not kernel-reducible). -/
def pyLower (s : String) : String :=
  String.mk (s.data.map Char.toLower)

/-! ### HTTP backend (`backends/http/http_backend.py`) -/

/-- An incoming `web.Request`, reduced to the four observations the rules
make: `request.method`, `request.rel_url.path`, `dict(request.rel_url.query)`
and `dict(request.headers)`. -/
structure HTTPRequest where
  method : String
  path : String
  query : List (String × String)
  headers : List (String × String)
deriving DecidableEq

/-- The `incoming_request_info` dictionary assembled by
`HTTPBackend.handle` for the no-match 404 response. -/
structure IncomingRequestInfo where
  method : String
  path : String
  query_params : List (String × String)
  headers : List (String × String)
deriving DecidableEq

/-- Response body: either an arbitrary payload produced by a rule's result, or
the no-match error JSON `{"ERROR": ..., "incoming_request_info": ...}`. -/
inductive HTTPBody where
  | payload (data : String)
  | errJson (error : String) (incoming_request_info : IncomingRequestInfo)
deriving DecidableEq

/-- A `web.Response`: status code plus body. -/
structure HTTPResponse where
  status : Nat
  body : HTTPBody
deriving DecidableEq

/-- The `path` attribute of an `HTTPRule`: a plain string (the `schema`
library then tests equality) or a `schema.Regex` (tested with `re.search`). -/
inductive PathSpec where
  | strPat (s : String)
  | regexPat (r : Regex)
deriving DecidableEq

/-- `HTTPRule` from `http_backend.py`.  The Schema-compatible query/header
validators are embedded as association lists of Boolean value predicates, and
`result` (an `IHTTPResult`) as the response its `process` produces for a
request. -/
structure HTTPRule where
  method : Option String
  path : Option PathSpec
  query_params : Option (List (String × (String → Bool)))
  ignore_extra_query_params : Bool
  headers : Option (List (String × (String → Bool)))
  ignore_extra_headers : Bool
  result : HTTPRequest → HTTPResponse

/-- `HTTPRule.method_mathes` (name as in the source): vacuously true when the
rule has no method, otherwise case-insensitive equality via `.lower()`. -/
def HTTPRule.method_mathes (rule : HTTPRule) (request : HTTPRequest) : Bool :=
  match rule.method with
  | none => true
  | some m => pyLower request.method == pyLower m

/-- `HTTPRule.path_matches`: when the rule's path is `None` both the schema
and the data are `None` and match; a string path is full equality; a
`schema.Regex` path is an `re.search`. -/
def HTTPRule.path_matches (rule : HTTPRule) (request : HTTPRequest) : Bool :=
  match rule.path with
  | none => true
  | some (.strPat s) => s == request.path
  | some (.regexPat r) => reSearch r request.path

/-- `HTTPRule.query_params_match`: vacuously true when the rule carries no
query validator, otherwise schema dict validation of the request's query
parameters with the rule's `ignore_extra_query_params` flag. -/
def HTTPRule.query_params_match (rule : HTTPRule) (request : HTTPRequest) : Bool :=
  match rule.query_params with
  | none => true
  | some validator => schemaDictValid validator rule.ignore_extra_query_params request.query

/-- `HTTPRule.headers_match`: vacuously true when the rule carries no header
validator, otherwise schema dict validation of the request's headers with the
rule's `ignore_extra_headers` flag. -/
def HTTPRule.headers_match (rule : HTTPRule) (request : HTTPRequest) : Bool :=
  match rule.headers with
  | none => true
  | some validator => schemaDictValid validator rule.ignore_extra_headers request.headers

/-- `HTTPRule.matches`: the conjunction of the four component matches. -/
def HTTPRule.matches (rule : HTTPRule) (request : HTTPRequest) : Bool :=
  rule.method_mathes request
    && rule.path_matches request
    && rule.query_params_match request
    && rule.headers_match request

/-- The 404 response `HTTPBackend.handle` produces when no rule matches:
error JSON echoing the request's method, path, query parameters and headers. -/
def noMatchResponse (request : HTTPRequest) : HTTPResponse :=
  { status := 404,
    body := HTTPBody.errJson "No matching rule found for incoming request"
      { method := request.method, path := request.path,
        query_params := request.query, headers := request.headers } }

/-- `HTTPBackend.handle`: scan the rules in declaration order, answer with the
first matching rule's result, or with the 404 no-match response. -/
def HTTPBackend.handle : List HTTPRule → HTTPRequest → HTTPResponse
  | [], request => noMatchResponse request
  | rule :: rest, request =>
    if rule.matches request then rule.result request
    else HTTPBackend.handle rest request

/-! ### gRPC backend (`backends/grpc/grpc_backend.py`) -/

/-- A decoded protobuf message, reduced to what `message_args_match` observes:
`ListFields()` as an association list from field name to (string) value. -/
structure PBMessage where
  fields : List (String × String)
deriving DecidableEq

/-- `GRPCRule` from `grpc_backend.py`.  `request_msg_cls` is embedded by its
`FromString` decoder, `output_handler` by the bytes it produces. -/
structure GRPCRule where
  request_msg_cls : List Nat → PBMessage
  output_handler : PBMessage → List Nat
  grpc_method : Option String
  message_args : Option (List (String × (String → Bool)))
  ignore_extra_message_args : Bool

/-- `GRPCRule.method_matches`: vacuously true when the rule names no method,
otherwise case-insensitive equality via `.casefold()`. -/
def GRPCRule.method_matches (rule : GRPCRule) (method : String) : Bool :=
  match rule.grpc_method with
  | none => true
  | some m => pyLower method == pyLower m

/-- `GRPCRule.message_args_match`: vacuously true when the rule carries no
field validator, otherwise schema dict validation of the decoded message's
field map with the rule's `ignore_extra_message_args` flag. -/
def GRPCRule.message_args_match (rule : GRPCRule) (message_ : PBMessage) : Bool :=
  match rule.message_args with
  | none => true
  | some validator => schemaDictValid validator rule.ignore_extra_message_args message_.fields

/-- The single gRPC status code the interceptor uses. -/
inductive GrpcStatusCode where
  | INVALID_ARGUMENT
deriving DecidableEq

/-- Outcome of `GRPCRuleInterceptor._handler`: response bytes from a matched
rule's output handler, or `context.abort(code, details)` with no response. -/
inductive GrpcOutcome where
  | response (data : List Nat)
  | abort (code : GrpcStatusCode) (details : String)
deriving DecidableEq

/-- `GRPCRuleInterceptor._handler`: walk the rules in order; on a method
match decode the raw request with the rule's message class; on a field match
answer with the rule's output handler; having exhausted the rules, abort the
call with `INVALID_ARGUMENT`. -/
def GRPCRuleInterceptor.handler : List GRPCRule → String → List Nat → GrpcOutcome
  | [], _, _ => .abort .INVALID_ARGUMENT "no matched GRPC rules found"
  | rule :: rest, grpc_method, request =>
    if rule.method_matches grpc_method then
      let request_message := rule.request_msg_cls request
      if rule.message_args_match request_message then
        .response (rule.output_handler request_message)
      else GRPCRuleInterceptor.handler rest grpc_method request
    else GRPCRuleInterceptor.handler rest grpc_method request

/-- The condition under which the interceptor's loop selects a rule: the
method matches and the decoded message's fields match. -/
def GRPCRule.selects (rule : GRPCRule) (grpc_method : String) (request : List Nat) : Bool :=
  rule.method_matches grpc_method && rule.message_args_match (rule.request_msg_cls request)

/-! ### Orchestration (`backends/api.py`: `start_backends`, `backends_manager`)

The multiprocessing layer is embedded as explicit effect records.  The
wall-clock polling loop `while monotonic() - start < start_timeout_sec` is
abstracted to a discrete sequence of polls: `sigLen t` is the length of the
shared readiness list `start_signals_list` observed at the `t`-th poll, and
`pollBudget` is the number of polls that fit in the timeout. -/

/-- An `ABackend` as the orchestration layer sees it: its `port` property and
its `repr` string (used in process names and error messages). -/
structure Backend where
  port : Nat
  reprStr : String
deriving DecidableEq

/-- A spawned `multiprocessing.Process` handle: its name and the backend whose
`run` method is its target. -/
structure Process where
  name : String
  target : Backend
deriving DecidableEq

/-- The process spawned for one backend by `start_backend` inside
`start_backends`. -/
def spawnProcess (b : Backend) : Process :=
  { name := "backend application " ++ b.reprStr, target := b }

/-- The `repr` of the backends list, as interpolated into the duplicate-port
error message. -/
def backendsRepr (bs : List Backend) : String :=
  "[" ++ String.intercalate ", " (bs.map Backend.reprStr) ++ "]"

/-- The `ValueError` message raised for duplicate ports, naming the given
backends. -/
def dupPortsMsg (bs : List Backend) : String :=
  "Some given backends from <backends=" ++ backendsRepr bs ++ "> have same port"

/-- The errors `start_backends` can raise: the duplicate-port `ValueError`
(with its message) or the startup `TimeoutError`. -/
inductive StartError where
  | valueError (msg : String)
  | timeoutError
deriving DecidableEq

/-- One call of `start_backends`, with its observable effects: the returned
processes or the raised error, whether the shared readiness list was created
(`manager.list()`), and which worker processes were spawned. -/
structure StartBackendsRun where
  result : Except StartError (List Process)
  signalsListCreated : Bool
  spawned : List Process

/-- The readiness polling loop: starting at poll index `t` with `fuel` polls
remaining before the deadline, return the index of the first poll observing
`target` readiness signals, or `none` on timeout. -/
def pollLoop (sigLen : Nat → Nat) (target : Nat) : Nat → Nat → Option Nat
  | _, 0 => none
  | t, fuel + 1 => if sigLen t = target then some t else pollLoop sigLen target (t + 1) fuel

/-- `start_backends`: fail fast with `ValueError` when two backends share a
port (before creating the readiness list or spawning anything); otherwise
spawn one process per backend, poll the readiness list until its length
equals the number of processes, and return the processes — or raise
`TimeoutError`, leaving the spawned processes running. -/
def start_backends (backends : List Backend) (sigLen : Nat → Nat)
    (pollBudget : Nat) : StartBackendsRun :=
  if backends.length ≠ ((backends.map Backend.port).dedup).length then
    { result := .error (.valueError (dupPortsMsg backends)),
      signalsListCreated := false, spawned := [] }
  else
    let backend_processes := backends.map spawnProcess
    match pollLoop sigLen backend_processes.length 0 pollBudget with
    | some _ =>
      { result := .ok backend_processes, signalsListCreated := true,
        spawned := backend_processes }
    | none =>
      { result := .error .timeoutError, signalsListCreated := true,
        spawned := backend_processes }

/-- How the caller code inside the `backends_manager` scope exits: normally or
by raising. -/
inductive BodyOutcome where
  | normal
  | raises
deriving DecidableEq

/-- How the `backends_manager` scope as a whole exits. -/
inductive ManagerExit where
  | normal
  | bodyError
  | startError (e : StartError)
deriving DecidableEq

/-- One run of the `backends_manager` context manager: the workers spawned
during the run, the workers terminated and joined by the `finally` block, and
the kind of scope exit. -/
structure ManagerRun where
  spawned : List Process
  terminated : List Process
  joined : List Process
  exitKind : ManagerExit

/-- `backends_manager`: `backends_processes` starts out empty and is assigned
only when `start_backends` returns; the `finally` block terminates then joins
exactly the processes in `backends_processes`.  When `start_backends` raises,
the assignment never happened, so nothing is terminated or joined. -/
def backends_manager (backends : List Backend) (sigLen : Nat → Nat)
    (pollBudget : Nat) (body : BodyOutcome) : ManagerRun :=
  let run := start_backends backends sigLen pollBudget
  match run.result with
  | .error e =>
    { spawned := run.spawned, terminated := [], joined := [],
      exitKind := .startError e }
  | .ok procs =>
    { spawned := run.spawned, terminated := procs, joined := procs,
      exitKind := match body with | .normal => .normal | .raises => .bodyError }

/-! ### Log capture bridge (`backends/api.py`: `LogsStorage`) -/

/-- A `logging.LogRecord` as `LogsStorage` observes it: level name, logger
name and formatted message. -/
structure LogRecord where
  levelname : String
  name : String
  message : String
deriving DecidableEq

/-- `LogsStorage` state: the cross-process queue (front of the list is the
front of the queue) and the local `logs_storage` buffer. -/
structure LogsStorage where
  logs_queue : List LogRecord
  logs_storage : List LogRecord
deriving DecidableEq

/-- `LogsStorage.clear_logs_queue`: drain the queue, discarding the records;
the local buffer is untouched.  This is what `__enter__` runs. -/
def LogsStorage.clear_logs_queue (s : LogsStorage) : LogsStorage :=
  { s with logs_queue := [] }

/-- `LogsStorage.clear_logs_storage`: empty the local buffer. -/
def LogsStorage.clear_logs_storage (s : LogsStorage) : LogsStorage :=
  { s with logs_storage := [] }

/-- `LogsStorage.collect_from_queue`: drain the queue, appending every drained
record to the local buffer in order.  This is what `__exit__` runs. -/
def LogsStorage.collect_from_queue (s : LogsStorage) : LogsStorage :=
  { logs_queue := [], logs_storage := s.logs_storage ++ s.logs_queue }

/-- `LogsStorage.filter_logs`: the buffered records, filtered by level name
and/or logger name when given, preserving order. -/
def LogsStorage.filter_logs (s : LogsStorage) (level : Option String)
    (name : Option String) : List LogRecord :=
  let byLevel :=
    match level with
    | none => s.logs_storage
    | some lv => s.logs_storage.filter fun log => log.levelname == lv
  match name with
  | none => byLevel
  | some n => byLevel.filter fun log => log.name == n

/-- `LogsStorage.has_log_record`: optionally collect the queue first, then
report whether some buffered record at the given level has a message that the
pattern matches (Python `Pattern.match`, anchored at the start).  Returns the
answer together with the possibly-updated state. -/
def LogsStorage.has_log_record (s : LogsStorage) (message_pattern : Regex)
    (level : String) (collect_new_records_from_queue : Bool) : Bool × LogsStorage :=
  let s1 := if collect_new_records_from_queue then s.collect_from_queue else s
  ((s1.filter_logs (some level) none).any fun log => reMatch message_pattern log.message, s1)

/-- New records arriving on the queue. -/
def LogsStorage.enqueue (s : LogsStorage) (records : List LogRecord) : LogsStorage :=
  { s with logs_queue := s.logs_queue ++ records }

/-- Using a `LogsStorage` as a context manager: `__enter__` clears the queue,
the body enqueues `during` (and possibly raises — Python runs `__exit__`
either way), `__exit__` collects the queue into the buffer.  Returns the final
state together with whether the body raised. -/
def LogsStorage.runScope (s : LogsStorage) (during : List LogRecord)
    (bodyRaises : Bool) : LogsStorage × Bool :=
  let entered := s.clear_logs_queue
  let afterBody := entered.enqueue during
  (afterBody.collect_from_queue, bodyRaises)

/-! ### Concrete demonstration inputs -/

/-- The all-`None` HTTP rule result used by the demo rules. -/
def demoResult : HTTPRequest → HTTPResponse :=
  fun _ => { status := 200, body := HTTPBody.payload "first" }

/-- Overlapping HTTP rule: matches any GET request. -/
def c1HttpRuleA : HTTPRule :=
  { method := some "GET", path := none, query_params := none,
    ignore_extra_query_params := false, headers := none,
    ignore_extra_headers := false, result := demoResult }

/-- Overlapping HTTP rule: matches every request. -/
def c1HttpRuleB : HTTPRule :=
  { method := none, path := none, query_params := none,
    ignore_extra_query_params := false, headers := none,
    ignore_extra_headers := false,
    result := fun _ => { status := 200, body := HTTPBody.payload "second" } }

/-- A GET request both overlapping HTTP rules match. -/
def c1Request : HTTPRequest :=
  { method := "GET", path := "/overlap", query := [], headers := [] }

/-- Overlapping gRPC rule: matches method `lookup` case-insensitively. -/
def c1GrpcRuleA : GRPCRule :=
  { request_msg_cls := fun _ => { fields := [("id", "42")] },
    output_handler := fun _ => [1], grpc_method := some "lookup",
    message_args := none, ignore_extra_message_args := false }

/-- Overlapping gRPC rule: matches every call. -/
def c1GrpcRuleB : GRPCRule :=
  { request_msg_cls := fun _ => { fields := [("id", "42")] },
    output_handler := fun _ => [2], grpc_method := none,
    message_args := none, ignore_extra_message_args := false }

/-- The validator of the spec's worked example: `{"q": "vk"}`. -/
def c2Validator : List (String × (String → Bool)) := [("q", fun v => v == "vk")]

/-- The actual mapping of the spec's worked example:
`{"q": "vk", "num": "10"}`. -/
def c2Actual : List (String × String) := [("q", "vk"), ("num", "10")]

/-- A request carrying the example query parameters. -/
def c2Request : HTTPRequest :=
  { method := "GET", path := "/s", query := c2Actual, headers := [] }

/-- HTTP rule validating the example query strictly (no extra keys allowed). -/
def c2RuleStrict : HTTPRule :=
  { method := none, path := none, query_params := some c2Validator,
    ignore_extra_query_params := false, headers := none,
    ignore_extra_headers := false, result := demoResult }

/-- HTTP rule validating the example query tolerantly. -/
def c2RuleTolerant : HTTPRule :=
  { c2RuleStrict with ignore_extra_query_params := true }

/-- A decoded message carrying the example field mapping. -/
def c2Message : PBMessage := { fields := c2Actual }

/-- gRPC rule validating the example message fields strictly. -/
def c2GrpcStrict : GRPCRule :=
  { request_msg_cls := fun _ => c2Message, output_handler := fun _ => [],
    grpc_method := none, message_args := some c2Validator,
    ignore_extra_message_args := false }

/-- gRPC rule validating the example message fields tolerantly. -/
def c2GrpcTolerant : GRPCRule :=
  { c2GrpcStrict with ignore_extra_message_args := true }

/-- An HTTP rule requiring method POST. -/
def c5Rule : HTTPRule :=
  { method := some "POST", path := none, query_params := none,
    ignore_extra_query_params := false, headers := none,
    ignore_extra_headers := false,
    result := fun _ => { status := 201, body := HTTPBody.payload "created" } }

/-- A GET request the POST-only rule does not match. -/
def c5Request : HTTPRequest :=
  { method := "GET", path := "/missing", query := [("a", "b")],
    headers := [("H", "v")] }

/-- A gRPC rule bound to a different method name. -/
def c5GrpcRule : GRPCRule :=
  { request_msg_cls := fun _ => { fields := [] }, output_handler := fun _ => [0],
    grpc_method := some "Other", message_args := none,
    ignore_extra_message_args := false }

/-- The regex `.*` followed by a literal, i.e. the explicit-wildcard form of a
pattern such as `.*info1`. -/
def dotStarThen (l : List Char) : Regex :=
  Regex.concat (Regex.star Regex.dot) (strLit l)

/-- Two backends sharing port 100. -/
def c3Backends : List Backend :=
  [{ port := 100, reprStr := "backend1" }, { port := 100, reprStr := "backend2" }]

/-- Two backends with distinct ports. -/
def c4Backends : List Backend :=
  [{ port := 1, reprStr := "b1" }, { port := 2, reprStr := "b2" }]

/-- A single backend that never signals readiness in the demo runs. -/
def c6Backends : List Backend := [{ port := 7, reprStr := "w0" }]

/-- Two backends with distinct ports for the successful manager run. -/
def c6OkBackends : List Backend :=
  [{ port := 11, reprStr := "w1" }, { port := 12, reprStr := "w2" }]

/-- A `LogsStorage` whose buffer holds one INFO record with message
`log_info1`. -/
def c10State : LogsStorage :=
  { logs_queue := [],
    logs_storage := [{ levelname := "INFO", name := "root", message := "log_info1" }] }

/-! ### Helper lemmas: regex matching -/

theorem Regex.matchFrom_fail (s : List Char) : Regex.fail.matchFrom s = false := by
  induction s with
  | nil => rfl
  | cons c cs ih => simp [Regex.matchFrom, Regex.deriv, Regex.nullable, ih]

theorem Regex.matchFrom_alt (r1 r2 : Regex) (s : List Char) :
    (Regex.alt r1 r2).matchFrom s = (r1.matchFrom s || r2.matchFrom s) := by
  induction s generalizing r1 r2 with
  | nil => rfl
  | cons c cs ih =>
    simp [Regex.matchFrom, Regex.deriv, Regex.nullable, ih,
      Bool.or_assoc, Bool.or_comm, Bool.or_left_comm]

theorem Regex.matchFrom_concat_fail (r : Regex) (s : List Char) :
    (Regex.concat Regex.fail r).matchFrom s = false := by
  induction s with
  | nil => rfl
  | cons c cs ih => simp [Regex.matchFrom, Regex.deriv, Regex.nullable, ih]

theorem Regex.matchFrom_concat_eps (r : Regex) (s : List Char) :
    (Regex.concat Regex.eps r).matchFrom s = r.matchFrom s := by
  induction s generalizing r with
  | nil => simp [Regex.matchFrom, Regex.nullable]
  | cons c cs ih =>
    simp [Regex.matchFrom, Regex.deriv, Regex.nullable, Regex.matchFrom_alt,
      Regex.matchFrom_concat_fail, ih]

theorem Regex.matchFrom_concat_char (c : Char) (r : Regex) (a : Char) (cs : List Char) :
    (Regex.concat (Regex.char c) r).matchFrom (a :: cs) =
      if a = c then r.matchFrom cs else false := by
  by_cases h : a = c <;>
    simp [Regex.matchFrom, Regex.deriv, Regex.nullable, h,
      Regex.matchFrom_concat_eps, Regex.matchFrom_concat_fail]

/-- A literal pattern, matched with Python `Pattern.match` semantics, accepts
exactly the strings it is a prefix of. -/
theorem matchFrom_strLit (l : List Char) : ∀ (s : List Char),
    (strLit l).matchFrom s = l.isPrefixOf s := by
  induction l with
  | nil =>
    intro s
    cases s <;> simp [strLit, Regex.matchFrom, Regex.nullable, List.isPrefixOf]
  | cons c l ih =>
    intro s
    cases s with
    | nil => simp [strLit, Regex.matchFrom, Regex.nullable, List.isPrefixOf]
    | cons a s =>
      rw [strLit, Regex.matchFrom_concat_char, List.isPrefixOf]
      by_cases h : a = c
      · subst h
        simp [ih]
      · simp only [if_neg h]
        have hba : (c == a) = false := by
          simp only [beq_eq_false_iff_ne]
          exact fun hh => h hh.symm
        simp [hba]

/-! ### Helper lemmas: schema dict validation -/

theorem valAccept_eq_true {α : Type} (p : α → Bool) (o : Option α) :
    valAccept p o = true ↔ ∃ v, o = some v ∧ p v = true := by
  cases o <;> simp [valAccept]

/-! ### Helper lemmas: first-match evaluation of the rule lists -/

theorem HTTPBackend.handle_first_match (rules : List HTTPRule) (request : HTTPRequest) :
    ∀ (i : Nat) (hi : i < rules.length),
      (∀ (j : Nat) (hj : j < i), (rules.get ⟨j, Nat.lt_trans hj hi⟩).matches request = false) →
      (rules.get ⟨i, hi⟩).matches request = true →
      HTTPBackend.handle rules request = (rules.get ⟨i, hi⟩).result request := by
  induction rules with
  | nil => intro i hi; exact absurd hi (Nat.not_lt_zero i)
  | cons rule rest ih =>
    intro i hi hbefore hmatch
    cases i with
    | zero =>
      simp only [List.get] at hmatch ⊢
      simp [HTTPBackend.handle, hmatch]
    | succ n =>
      have hhead : rule.matches request = false := hbefore 0 (Nat.zero_lt_succ n)
      have htail := ih n (Nat.lt_of_succ_lt_succ hi)
        (fun j hj => hbefore (j + 1) (Nat.succ_lt_succ hj)) hmatch
      simp [HTTPBackend.handle, hhead, htail]

theorem HTTPBackend.handle_no_match (rules : List HTTPRule) (request : HTTPRequest)
    (h : ∀ rule ∈ rules, rule.matches request = false) :
    HTTPBackend.handle rules request = noMatchResponse request := by
  induction rules with
  | nil => rfl
  | cons rule rest ih =>
    have hhead := h rule (List.mem_cons_self rule rest)
    have htail := ih fun r hr => h r (List.mem_cons_of_mem rule hr)
    simp [HTTPBackend.handle, hhead, htail]

theorem GRPCRuleInterceptor.handler_cons (rule : GRPCRule) (rest : List GRPCRule)
    (grpc_method : String) (request : List Nat) :
    GRPCRuleInterceptor.handler (rule :: rest) grpc_method request =
      if rule.selects grpc_method request then
        GrpcOutcome.response (rule.output_handler (rule.request_msg_cls request))
      else GRPCRuleInterceptor.handler rest grpc_method request := by
  by_cases h1 : rule.method_matches grpc_method = true
  · by_cases h2 : rule.message_args_match (rule.request_msg_cls request) = true <;>
      simp [GRPCRuleInterceptor.handler, GRPCRule.selects, h1, h2]
  · simp [GRPCRuleInterceptor.handler, GRPCRule.selects,
      Bool.eq_false_iff.mpr h1]

theorem GRPCRuleInterceptor.handler_first_match (rules : List GRPCRule)
    (grpc_method : String) (request : List Nat) :
    ∀ (i : Nat) (hi : i < rules.length),
      (∀ (j : Nat) (hj : j < i),
        (rules.get ⟨j, Nat.lt_trans hj hi⟩).selects grpc_method request = false) →
      (rules.get ⟨i, hi⟩).selects grpc_method request = true →
      GRPCRuleInterceptor.handler rules grpc_method request =
        GrpcOutcome.response ((rules.get ⟨i, hi⟩).output_handler
          ((rules.get ⟨i, hi⟩).request_msg_cls request)) := by
  induction rules with
  | nil => intro i hi; exact absurd hi (Nat.not_lt_zero i)
  | cons rule rest ih =>
    intro i hi hbefore hmatch
    cases i with
    | zero =>
      simp only [List.get] at hmatch ⊢
      simp [GRPCRuleInterceptor.handler_cons, hmatch]
    | succ n =>
      have hhead : rule.selects grpc_method request = false := hbefore 0 (Nat.zero_lt_succ n)
      have htail := ih n (Nat.lt_of_succ_lt_succ hi)
        (fun j hj => hbefore (j + 1) (Nat.succ_lt_succ hj)) hmatch
      simp [GRPCRuleInterceptor.handler_cons, hhead, htail]

theorem GRPCRuleInterceptor.handler_no_match (rules : List GRPCRule)
    (grpc_method : String) (request : List Nat)
    (h : ∀ rule ∈ rules, rule.selects grpc_method request = false) :
    GRPCRuleInterceptor.handler rules grpc_method request =
      GrpcOutcome.abort GrpcStatusCode.INVALID_ARGUMENT "no matched GRPC rules found" := by
  induction rules with
  | nil => rfl
  | cons rule rest ih =>
    have hhead := h rule (List.mem_cons_self rule rest)
    have htail := ih fun r hr => h r (List.mem_cons_of_mem rule hr)
    simp [GRPCRuleInterceptor.handler_cons, hhead, htail]

/-! ### Helper lemmas: orchestration -/

/-- Two positions sharing a port make the duplicate-port check fire:
the backend count differs from the cardinality of the port set. -/
theorem ports_dup_length_ne (backends : List Backend) (i j : Nat)
    (hij : i < j) (hj : j < backends.length)
    (hport : (backends.get ⟨i, Nat.lt_trans hij hj⟩).port = (backends.get ⟨j, hj⟩).port) :
    backends.length ≠ ((backends.map Backend.port).dedup).length := by
  intro hlen
  have hmaplen : (backends.map Backend.port).length = backends.length :=
    List.length_map backends Backend.port
  have hlen2 : (backends.map Backend.port).length
      = ((backends.map Backend.port).dedup).length := by omega
  have hdd : (backends.map Backend.port).dedup = backends.map Backend.port :=
    (List.dedup_sublist _).eq_of_length hlen2.symm
  have hnd : (backends.map Backend.port).Nodup := by
    rw [← hdd]; exact List.nodup_dedup _
  have hinj := List.nodup_iff_injective_get.mp hnd
  have hi' : i < (backends.map Backend.port).length := by omega
  have hj' : j < (backends.map Backend.port).length := by omega
  have heq : (backends.map Backend.port).get ⟨i, hi'⟩
      = (backends.map Backend.port).get ⟨j, hj'⟩ := by
    simp only [List.get_eq_getElem, List.getElem_map]
    simp only [List.get_eq_getElem] at hport
    exact hport
  have hfin := hinj heq
  have hij2 : i = j := congrArg Fin.val hfin
  omega

/-- If some poll within the budget observes the target readiness count, the
polling loop breaks at a poll observing the target count. -/
theorem pollLoop_some (sigLen : Nat → Nat) (target : Nat) :
    ∀ (fuel t0 : Nat), (∃ d, d < fuel ∧ sigLen (t0 + d) = target) →
      ∃ t, pollLoop sigLen target t0 fuel = some t ∧ sigLen t = target := by
  intro fuel
  induction fuel with
  | zero =>
    intro t0 h
    obtain ⟨d, hd, _⟩ := h
    exact absurd hd (Nat.not_lt_zero d)
  | succ n ih =>
    intro t0 h
    obtain ⟨d, hd, hsig⟩ := h
    by_cases h0 : sigLen t0 = target
    · exact ⟨t0, by simp [pollLoop, h0], h0⟩
    · cases d with
      | zero => rw [Nat.add_zero] at hsig; exact absurd hsig h0
      | succ d1 =>
        obtain ⟨t, hloop, hsigt⟩ := ih (t0 + 1)
          ⟨d1, Nat.lt_of_succ_lt_succ hd, by
            rw [show t0 + 1 + d1 = t0 + (d1 + 1) by omega]; exact hsig⟩
        exact ⟨t, by simp [pollLoop, h0, hloop], hsigt⟩

/-- `start_backends` has exactly three observable outcomes: the duplicate-port
`ValueError` with nothing created, success with the per-backend processes, or
the startup timeout with the same processes spawned and left running. -/
theorem start_backends_cases (backends : List Backend) (sigLen : Nat → Nat)
    (pollBudget : Nat) :
    (start_backends backends sigLen pollBudget
        = { result := Except.error (StartError.valueError (dupPortsMsg backends)),
            signalsListCreated := false, spawned := [] })
    ∨ (start_backends backends sigLen pollBudget
        = { result := Except.ok (backends.map spawnProcess),
            signalsListCreated := true, spawned := backends.map spawnProcess })
    ∨ (start_backends backends sigLen pollBudget
        = { result := Except.error StartError.timeoutError,
            signalsListCreated := true, spawned := backends.map spawnProcess }) := by
  unfold start_backends
  by_cases hc : backends.length ≠ ((backends.map Backend.port).dedup).length
  · rw [if_pos hc]
    exact Or.inl rfl
  · rw [if_neg hc]
    dsimp only
    cases hp : pollLoop sigLen (backends.map spawnProcess).length 0 pollBudget with
    | some t => exact Or.inr (Or.inl rfl)
    | none => exact Or.inr (Or.inr rfl)

/-! ### Claims -/

/-- Claim C1: rules are evaluated in declaration order and the first rule
whose predicate is fully satisfied determines the response; when several rules
would match, the earliest matching rule's result is produced and later
matching rules are never consulted — for HTTP via `HTTPBackend.handle` over
`HTTPRule.matches`, and for gRPC via the interceptor handler over
`method_matches` then `message_args_match`. -/
theorem claim_C1 (hrules : List HTTPRule) (request : HTTPRequest)
    (i : Nat) (hi : i < hrules.length)
    (hfirst : ∀ (j : Nat) (hj : j < i),
      (hrules.get ⟨j, Nat.lt_trans hj hi⟩).matches request = false)
    (hmatch : (hrules.get ⟨i, hi⟩).matches request = true)
    (grules : List GRPCRule) (grpc_method : String) (raw : List Nat)
    (k : Nat) (hk : k < grules.length)
    (gfirst : ∀ (j : Nat) (hj : j < k),
      (grules.get ⟨j, Nat.lt_trans hj hk⟩).selects grpc_method raw = false)
    (gmatch : (grules.get ⟨k, hk⟩).selects grpc_method raw = true) :
    HTTPBackend.handle hrules request = (hrules.get ⟨i, hi⟩).result request
    ∧ GRPCRuleInterceptor.handler grules grpc_method raw
        = GrpcOutcome.response ((grules.get ⟨k, hk⟩).output_handler
            ((grules.get ⟨k, hk⟩).request_msg_cls raw)) :=
  ⟨HTTPBackend.handle_first_match hrules request i hi hfirst hmatch,
    GRPCRuleInterceptor.handler_first_match grules grpc_method raw k hk gfirst gmatch⟩

/-- Witness for C1: overlapping two-rule sets in which both rules match; the
first rule's result is produced in both protocols. -/
theorem claim_C1_witness :
    HTTPBackend.handle [c1HttpRuleA, c1HttpRuleB] c1Request
        = c1HttpRuleA.result c1Request
    ∧ GRPCRuleInterceptor.handler [c1GrpcRuleA, c1GrpcRuleB] "Lookup" [7]
        = GrpcOutcome.response (c1GrpcRuleA.output_handler
            (c1GrpcRuleA.request_msg_cls [7])) :=
  claim_C1 [c1HttpRuleA, c1HttpRuleB] c1Request 0 (by decide) (by decide) (by decide)
    [c1GrpcRuleA, c1GrpcRuleB] "Lookup" [7] 0 (by decide) (by decide) (by decide)

/-- Claim C2: mapping validation (HTTP query parameters and headers, gRPC
message fields) succeeds with the tolerance flag set iff every validator key
is present in the actual mapping with an accepted value, extra actual keys
being ignored; with the flag unset it additionally requires every actual key
to be a validator key (together with the first condition: equal key sets).
In particular validator `{"q": "vk"}` against actual `{"q": "vk", "num":
"10"}` fails strictly and succeeds tolerantly, in both protocols. -/
theorem claim_C2 (validator : List (String × (String → Bool)))
    (actual : List (String × String)) :
    (schemaDictValid validator true actual = true ↔
      ∀ kv ∈ validator, ∃ v, actual.lookup kv.fst = some v ∧ kv.snd v = true)
    ∧ (schemaDictValid validator false actual = true ↔
      ((∀ kv ∈ validator, ∃ v, actual.lookup kv.fst = some v ∧ kv.snd v = true)
        ∧ ∀ dv ∈ actual, ∃ kv ∈ validator, kv.fst = dv.fst))
    ∧ (∀ (mth : Option String) (pth : Option PathSpec) (ie : Bool)
        (hd : Option (List (String × (String → Bool)))) (ihd : Bool)
        (res : HTTPRequest → HTTPResponse) (meth path : String)
        (hs : List (String × String)),
        (HTTPRule.mk mth pth (some validator) ie hd ihd res).query_params_match
            (HTTPRequest.mk meth path actual hs)
          = schemaDictValid validator ie actual)
    ∧ (∀ (mth : Option String) (pth : Option PathSpec)
        (qp : Option (List (String × (String → Bool)))) (iq ie : Bool)
        (res : HTTPRequest → HTTPResponse) (meth path : String)
        (qs : List (String × String)),
        (HTTPRule.mk mth pth qp iq (some validator) ie res).headers_match
            (HTTPRequest.mk meth path qs actual)
          = schemaDictValid validator ie actual)
    ∧ (∀ (cls : List Nat → PBMessage) (out : PBMessage → List Nat)
        (gm : Option String) (ie : Bool),
        (GRPCRule.mk cls out gm (some validator) ie).message_args_match
            (PBMessage.mk actual)
          = schemaDictValid validator ie actual)
    ∧ c2RuleStrict.query_params_match c2Request = false
    ∧ c2RuleTolerant.query_params_match c2Request = true
    ∧ c2GrpcStrict.message_args_match c2Message = false
    ∧ c2GrpcTolerant.message_args_match c2Message = true := by
  refine ⟨?_, ?_, fun _ _ _ _ _ _ _ _ _ => rfl, fun _ _ _ _ _ _ _ _ _ => rfl,
    fun _ _ _ _ => rfl, by decide, by decide, by decide, by decide⟩
  · simp [schemaDictValid, List.all_eq_true, valAccept_eq_true]
  · simp [schemaDictValid, List.all_eq_true, List.any_eq_true,
      valAccept_eq_true, beq_iff_eq]

/-- Claim C5: when no rule matches, a protocol-appropriate error response is
produced rather than an exception: HTTP answers 404 with a JSON body echoing
the request's method, path, query parameters and headers; gRPC aborts with
`INVALID_ARGUMENT` and a diagnostic message, returning no response bytes. -/
theorem claim_C5 (rules : List HTTPRule) (request : HTTPRequest)
    (hnone : ∀ rule ∈ rules, rule.matches request = false)
    (grules : List GRPCRule) (grpc_method : String) (raw : List Nat)
    (gnone : ∀ rule ∈ grules, rule.selects grpc_method raw = false) :
    HTTPBackend.handle rules request = noMatchResponse request
    ∧ noMatchResponse request =
        { status := 404,
          body := HTTPBody.errJson "No matching rule found for incoming request"
            { method := request.method, path := request.path,
              query_params := request.query, headers := request.headers } }
    ∧ GRPCRuleInterceptor.handler grules grpc_method raw
        = GrpcOutcome.abort GrpcStatusCode.INVALID_ARGUMENT
            "no matched GRPC rules found" :=
  ⟨HTTPBackend.handle_no_match rules request hnone, rfl,
    GRPCRuleInterceptor.handler_no_match grules grpc_method raw gnone⟩

/-- Witness for C5: a GET request against a POST-only rule set yields the 404
echo response; a call to an unbound method yields the `INVALID_ARGUMENT`
abort. -/
theorem claim_C5_witness :
    HTTPBackend.handle [c5Rule] c5Request = noMatchResponse c5Request
    ∧ noMatchResponse c5Request =
        { status := 404,
          body := HTTPBody.errJson "No matching rule found for incoming request"
            { method := c5Request.method, path := c5Request.path,
              query_params := c5Request.query, headers := c5Request.headers } }
    ∧ GRPCRuleInterceptor.handler [c5GrpcRule] "Lookup" [1, 2]
        = GrpcOutcome.abort GrpcStatusCode.INVALID_ARGUMENT
            "no matched GRPC rules found" :=
  claim_C5 [c5Rule] c5Request (by decide) [c5GrpcRule] "Lookup" [1, 2] (by decide)

/-- Claim C7: `HTTPRule.matches` is the conjunction of the method, path,
query-parameter and header matches; each component match is true whenever its
rule attribute is `None`; and the method match, when set, is case-insensitive
string equality. -/
theorem claim_C7 (rule : HTTPRule) (request : HTTPRequest)
    (mth : Option String) (pth : Option PathSpec)
    (qp : Option (List (String × (String → Bool)))) (iq : Bool)
    (hd : Option (List (String × (String → Bool)))) (ihd : Bool)
    (res : HTTPRequest → HTTPResponse) (m : String) :
    (rule.matches request
      = (rule.method_mathes request && rule.path_matches request
          && rule.query_params_match request && rule.headers_match request))
    ∧ (HTTPRule.mk none pth qp iq hd ihd res).method_mathes request = true
    ∧ (HTTPRule.mk (some m) pth qp iq hd ihd res).method_mathes request
        = (pyLower request.method == pyLower m)
    ∧ (HTTPRule.mk mth none qp iq hd ihd res).path_matches request = true
    ∧ (HTTPRule.mk mth pth none iq hd ihd res).query_params_match request = true
    ∧ (HTTPRule.mk mth pth qp iq none ihd res).headers_match request = true :=
  ⟨rfl, rfl, rfl, rfl, rfl, rfl⟩

/-- Claim C3: two backends sharing a port make `start_backends` raise the
configuration `ValueError` naming the backends, before any worker process is
spawned and before the shared readiness collection is created. -/
theorem claim_C3 (backends : List Backend) (sigLen : Nat → Nat) (pollBudget : Nat)
    (i j : Nat) (hij : i < j) (hj : j < backends.length)
    (hport : (backends.get ⟨i, Nat.lt_trans hij hj⟩).port = (backends.get ⟨j, hj⟩).port) :
    (start_backends backends sigLen pollBudget).result
        = Except.error (StartError.valueError (dupPortsMsg backends))
    ∧ (start_backends backends sigLen pollBudget).spawned = []
    ∧ (start_backends backends sigLen pollBudget).signalsListCreated = false := by
  have hne := ports_dup_length_ne backends i j hij hj hport
  unfold start_backends
  rw [if_pos hne]
  exact ⟨rfl, rfl, rfl⟩

/-- Witness for C3: two backends on port 100. -/
theorem claim_C3_witness :
    (start_backends c3Backends (fun _ => 0) 3).result
        = Except.error (StartError.valueError (dupPortsMsg c3Backends))
    ∧ (start_backends c3Backends (fun _ => 0) 3).spawned = []
    ∧ (start_backends c3Backends (fun _ => 0) 3).signalsListCreated = false :=
  claim_C3 c3Backends (fun _ => 0) 3 0 1 (by decide) (by decide) (by decide)

/-- Claim C4: with pairwise-distinct ports and all workers signalling within
the timeout, `start_backends` returns one worker handle per backend in order,
and the polling loop breaks at a poll where the readiness collection length
equals the number of backends. -/
theorem claim_C4 (backends : List Backend) (sigLen : Nat → Nat) (pollBudget : Nat)
    (hports : (backends.map Backend.port).Nodup)
    (hready : ∃ t, t < pollBudget ∧ sigLen t = backends.length) :
    ∃ t, pollLoop sigLen (backends.map spawnProcess).length 0 pollBudget = some t
      ∧ sigLen t = backends.length
      ∧ (start_backends backends sigLen pollBudget).result
          = Except.ok (backends.map spawnProcess)
      ∧ (backends.map spawnProcess).length = backends.length := by
  have hmaplen : (backends.map spawnProcess).length = backends.length :=
    List.length_map backends spawnProcess
  obtain ⟨t0, ht0, hsig⟩ := hready
  obtain ⟨t, hloop, hsigt⟩ := pollLoop_some sigLen (backends.map spawnProcess).length
    pollBudget 0 ⟨t0, ht0, by rw [Nat.zero_add, hmaplen]; exact hsig⟩
  have hcond : ¬ backends.length ≠ ((backends.map Backend.port).dedup).length := by
    rw [List.dedup_eq_self.mpr hports, List.length_map]
    exact fun h => h rfl
  refine ⟨t, hloop, by rwa [hmaplen] at hsigt, ?_, hmaplen⟩
  unfold start_backends
  rw [if_neg hcond]
  dsimp only
  rw [hloop]

/-- Witness for C4: two backends with distinct ports; the readiness list
grows one signal per poll and reaches 2 at poll 2 of a 3-poll budget. -/
theorem claim_C4_witness :
    ∃ t, pollLoop (fun u => u) (c4Backends.map spawnProcess).length 0 3 = some t
      ∧ (fun u : Nat => u) t = c4Backends.length
      ∧ (start_backends c4Backends (fun u => u) 3).result
          = Except.ok (c4Backends.map spawnProcess)
      ∧ (c4Backends.map spawnProcess).length = c4Backends.length :=
  claim_C4 c4Backends (fun u => u) 3 (by decide) ⟨2, by decide, by decide⟩

/-- Counterexample to C6 as stated: with one backend that never signals
readiness, `start_backends` times out after spawning the worker; the scope
exit of `backends_manager` then terminates and joins nothing, leaving the
spawned worker running. -/
theorem claim_C6_counterexample :
    (backends_manager c6Backends (fun _ => 0) 1 BodyOutcome.normal).spawned
        = [spawnProcess { port := 7, reprStr := "w0" }]
    ∧ (backends_manager c6Backends (fun _ => 0) 1 BodyOutcome.normal).terminated = []
    ∧ (backends_manager c6Backends (fun _ => 0) 1 BodyOutcome.normal).joined = []
    ∧ (backends_manager c6Backends (fun _ => 0) 1 BodyOutcome.normal).exitKind
        = ManagerExit.startError StartError.timeoutError :=
  ⟨rfl, rfl, rfl, rfl⟩

/-- Claim C6, amended: when `start_backends` returns successfully, every
spawned worker is terminated and joined on scope exit, whether the scope exits
normally or via an exception raised by caller code; when `start_backends`
itself raises (duplicate ports, or a startup timeout after workers were
spawned), the scope exit terminates and joins nothing — workers spawned
before a timeout are left running (only their daemon flag reclaims them). -/
theorem claim_C6 (backends : List Backend) (sigLen : Nat → Nat) (pollBudget : Nat)
    (body : BodyOutcome) (procs : List Process)
    (hok : (start_backends backends sigLen pollBudget).result = Except.ok procs) :
    (backends_manager backends sigLen pollBudget body).spawned = procs
    ∧ (backends_manager backends sigLen pollBudget body).terminated = procs
    ∧ (backends_manager backends sigLen pollBudget body).joined = procs := by
  rcases start_backends_cases backends sigLen pollBudget with hcase | hcase | hcase
  · rw [hcase] at hok
    exact absurd hok (by simp)
  · rw [hcase] at hok
    have hprocs : backends.map spawnProcess = procs := by
      simpa using hok
    subst hprocs
    unfold backends_manager
    rw [hcase]
    cases body <;> exact ⟨rfl, rfl, rfl⟩
  · rw [hcase] at hok
    exact absurd hok (by simp)

/-- Witness for C6: a successful two-backend run whose scope exits via a
caller exception; both workers are terminated and joined. -/
theorem claim_C6_witness :
    (backends_manager c6OkBackends (fun u => u) 3 BodyOutcome.raises).spawned
        = c6OkBackends.map spawnProcess
    ∧ (backends_manager c6OkBackends (fun u => u) 3 BodyOutcome.raises).terminated
        = c6OkBackends.map spawnProcess
    ∧ (backends_manager c6OkBackends (fun u => u) 3 BodyOutcome.raises).joined
        = c6OkBackends.map spawnProcess :=
  claim_C6 c6OkBackends (fun u => u) 3 BodyOutcome.raises
    (c6OkBackends.map spawnProcess) rfl

/-- Claim C8: entering a `LogsStorage` capture scope drains the queue and
discards the drained records, leaving the buffer untouched, so pre-scope
records are not visible afterwards; on scope exit the queue is drained once
more into the buffer, so every record queued during the scope is buffered
after exit — also when the scope exits via an exception. -/
theorem claim_C8 (s : LogsStorage) (during : List LogRecord) (bodyRaises : Bool) :
    (s.clear_logs_queue).logs_storage = s.logs_storage
    ∧ (s.clear_logs_queue).logs_queue = []
    ∧ (s.runScope during bodyRaises).fst.logs_storage = s.logs_storage ++ during
    ∧ (s.runScope during bodyRaises).fst.logs_queue = [] := by
  refine ⟨rfl, rfl, ?_, rfl⟩
  simp [LogsStorage.runScope, LogsStorage.clear_logs_queue, LogsStorage.enqueue,
    LogsStorage.collect_from_queue]

/-- Claim C9: `has_log_record` is true iff some record with exactly the given
level name and a pattern-matching message is in the buffer — the buffer being
first extended by the drained queue when `collect_new_records_from_queue` is
set, so a matching record still sitting in the queue is found in that case. -/
theorem claim_C9 (s : LogsStorage) (pat : Regex) (level : String) (collect : Bool) :
    (s.has_log_record pat level collect).fst = true ↔
      ∃ log ∈ (if collect then s.logs_storage ++ s.logs_queue else s.logs_storage),
        log.levelname = level ∧ reMatch pat log.message = true := by
  cases collect <;>
    simp [LogsStorage.has_log_record, LogsStorage.collect_from_queue,
      LogsStorage.filter_logs, List.any_eq_true, List.mem_filter, beq_iff_eq,
      and_assoc, or_and_right, exists_or]

/-- Claim C10: `has_log_record` matches the pattern anchored at the start of
the message (Python `Pattern.match`): a literal pattern is found iff it is a
prefix of the message; in particular pattern `info1` does not match the
buffered message `log_info1`, while the wildcard-prefixed `.*info1` does. -/
theorem claim_C10 (l m : List Char) (lvl nm : String) :
    ((LogsStorage.mk [] [LogRecord.mk lvl nm (String.mk m)]).has_log_record
        (strLit l) lvl false).fst = l.isPrefixOf m
    ∧ (c10State.has_log_record (strLit "info1".data) "INFO" false).fst = false
    ∧ (c10State.has_log_record (dotStarThen "info1".data) "INFO" false).fst = true := by
  refine ⟨?_, by decide, by decide⟩
  simp [LogsStorage.has_log_record, LogsStorage.filter_logs, reMatch, matchFrom_strLit]

end TestingUtils
